import Mathlib

/-!
Shallow embedding of the argument parser in `lib/argparse.js` (jpolo/node-argparse)
and proofs about the claims of the specification.

The embedding models JavaScript values, the loose/strict equality and truthiness
semantics the source relies on, a small regular-expression engine sufficient for
the regex source strings the parser builds, and then the parser functions
themselves, translated line by line from the source.  JavaScript quirks that the
source (a port from Python) trips over are modelled faithfully and documented at
the definition that embeds the affected source lines:

* `String.prototype.split(sep, limit)` keeps at most `limit` leading fields, so
  `"--foo=baz".split("=", 1)` is `["--foo"]` and the explicit value is lost
  (`_parseOptional`, line 2106);
* `String.prototype.replace(str, repl)` with a string pattern replaces only the
  first occurrence (`_getRegexpNargs`, lines 2237-2238, and destination
  derivation, line 1404);
* `Array.prototype.splice(i)` with a single argument removes every element from
  `i` to the end (`_handleConflictResolve` line 1470, `_removeAction` line 1295);
* an empty array is truthy, so `!someArray` is always `false`
  (`_getValues` lines 2255/2265, `_parseOptional` line 2135, `_addAction`
  line 1283);
* a plain object has no `forEach` method, so `this._optionStringActions.forEach`
  throws a `TypeError` (`_getOptionTuples`, lines 2166 and 2183);
* a method reference called as a bare function loses its `this` binding
  (`_checkConflict` line 1449 calling the conflict handler), so the handler body
  dereferences properties of the global object;
* in a string literal `"\d"` denotes just `"d"`, so the negative-number regexp
  source `'^-\d+$|^-\d*\.\d+$'` is at run time the string `^-d+$|^-d*.d+$`
  (line 1160).
-/

namespace Argparse

/-- JavaScript values as they occur in the parser: strings, numbers (integers
suffice for every value the claims touch), booleans, arrays, functions
(represented by a tag interpreted by `applyFn`), `undefined` and `null`. -/
inductive Value where
  | str (s : String)
  | num (n : Int)
  | bool (b : Bool)
  | list (vs : List Value)
  | fn (tag : String)
  | undefined
  | null
deriving Repr

mutual
/-- Decidable equality for `Value` (the nested `list` constructor prevents the
automatic derivation). -/
def Value.decEq : (a b : Value) → Decidable (a = b)
  | .str a, .str b =>
    match String.decEq a b with
    | isTrue h => isTrue (h ▸ rfl)
    | isFalse h => isFalse fun he => h (Value.str.inj he)
  | .num a, .num b =>
    match Int.decEq a b with
    | isTrue h => isTrue (h ▸ rfl)
    | isFalse h => isFalse fun he => h (Value.num.inj he)
  | .bool a, .bool b =>
    match Bool.decEq a b with
    | isTrue h => isTrue (h ▸ rfl)
    | isFalse h => isFalse fun he => h (Value.bool.inj he)
  | .fn a, .fn b =>
    match String.decEq a b with
    | isTrue h => isTrue (h ▸ rfl)
    | isFalse h => isFalse fun he => h (Value.fn.inj he)
  | .list a, .list b =>
    match Value.decEqList a b with
    | isTrue h => isTrue (h ▸ rfl)
    | isFalse h => isFalse fun he => h (Value.list.inj he)
  | .undefined, .undefined => isTrue rfl
  | .null, .null => isTrue rfl
  | .str _, .num _ => isFalse fun h => Value.noConfusion h
  | .str _, .bool _ => isFalse fun h => Value.noConfusion h
  | .str _, .list _ => isFalse fun h => Value.noConfusion h
  | .str _, .fn _ => isFalse fun h => Value.noConfusion h
  | .str _, .undefined => isFalse fun h => Value.noConfusion h
  | .str _, .null => isFalse fun h => Value.noConfusion h
  | .num _, .str _ => isFalse fun h => Value.noConfusion h
  | .num _, .bool _ => isFalse fun h => Value.noConfusion h
  | .num _, .list _ => isFalse fun h => Value.noConfusion h
  | .num _, .fn _ => isFalse fun h => Value.noConfusion h
  | .num _, .undefined => isFalse fun h => Value.noConfusion h
  | .num _, .null => isFalse fun h => Value.noConfusion h
  | .bool _, .str _ => isFalse fun h => Value.noConfusion h
  | .bool _, .num _ => isFalse fun h => Value.noConfusion h
  | .bool _, .list _ => isFalse fun h => Value.noConfusion h
  | .bool _, .fn _ => isFalse fun h => Value.noConfusion h
  | .bool _, .undefined => isFalse fun h => Value.noConfusion h
  | .bool _, .null => isFalse fun h => Value.noConfusion h
  | .list _, .str _ => isFalse fun h => Value.noConfusion h
  | .list _, .num _ => isFalse fun h => Value.noConfusion h
  | .list _, .bool _ => isFalse fun h => Value.noConfusion h
  | .list _, .fn _ => isFalse fun h => Value.noConfusion h
  | .list _, .undefined => isFalse fun h => Value.noConfusion h
  | .list _, .null => isFalse fun h => Value.noConfusion h
  | .fn _, .str _ => isFalse fun h => Value.noConfusion h
  | .fn _, .num _ => isFalse fun h => Value.noConfusion h
  | .fn _, .bool _ => isFalse fun h => Value.noConfusion h
  | .fn _, .list _ => isFalse fun h => Value.noConfusion h
  | .fn _, .undefined => isFalse fun h => Value.noConfusion h
  | .fn _, .null => isFalse fun h => Value.noConfusion h
  | .undefined, .str _ => isFalse fun h => Value.noConfusion h
  | .undefined, .num _ => isFalse fun h => Value.noConfusion h
  | .undefined, .bool _ => isFalse fun h => Value.noConfusion h
  | .undefined, .list _ => isFalse fun h => Value.noConfusion h
  | .undefined, .fn _ => isFalse fun h => Value.noConfusion h
  | .undefined, .null => isFalse fun h => Value.noConfusion h
  | .null, .str _ => isFalse fun h => Value.noConfusion h
  | .null, .num _ => isFalse fun h => Value.noConfusion h
  | .null, .bool _ => isFalse fun h => Value.noConfusion h
  | .null, .list _ => isFalse fun h => Value.noConfusion h
  | .null, .fn _ => isFalse fun h => Value.noConfusion h
  | .null, .undefined => isFalse fun h => Value.noConfusion h

/-- Decidable equality for lists of values. -/
def Value.decEqList : (as bs : List Value) → Decidable (as = bs)
  | [], [] => isTrue rfl
  | [], _ :: _ => isFalse fun h => List.noConfusion h
  | _ :: _, [] => isFalse fun h => List.noConfusion h
  | a :: as, b :: bs =>
    match Value.decEq a b with
    | isFalse h => isFalse fun he => h (List.cons.inj he).1
    | isTrue h1 =>
      match Value.decEqList as bs with
      | isTrue h2 => isTrue (h1 ▸ h2 ▸ rfl)
      | isFalse h2 => isFalse fun he => h2 (List.cons.inj he).2
end

instance : DecidableEq Value := Value.decEq

/-- JavaScript errors thrown by the embedded code. -/
inductive JsErr where
  | typeError (msg : String)
  | assertionError (msg : String)
  | error (msg : String)
  | argumentError (argName : Value) (msg : String)
  | syntaxError (pat : String)
  | referenceError (msg : String)
  | rangeError (msg : String)
deriving Repr, DecidableEq

/-- Abnormal outcomes of running parser code: `process.exit(status)` (which
terminates the process and is not catchable by `try`/`catch`), or a thrown
JavaScript exception. -/
inductive Abort where
  | exit (status : Int)
  | thrown (e : JsErr)
deriving Repr, DecidableEq

/-- Source `$defined(obj)`: `obj != undefined` with loose inequality, hence
`false` exactly on `undefined` and `null`. -/
def jsDefined : Value → Bool
  | .undefined => false
  | .null => false
  | _ => true

/-- Source `$value(value, defaultValue)`: the default when the value is not
defined. -/
def jsValue (v d : Value) : Value :=
  if jsDefined v then v else d

/-- JavaScript truthiness.  Note that every object, in particular every array,
is truthy. -/
def jsTruthy : Value → Bool
  | .str s => s ≠ ""
  | .num n => n ≠ 0
  | .bool b => b
  | .list _ => true
  | .fn _ => true
  | .undefined => false
  | .null => false

/-- Whether a character is whitespace for the purposes of ToNumber. -/
def isSpaceChar (c : Char) : Bool :=
  c = ' ' ∨ c = '\t' ∨ c = '\n' ∨ c = '\r'

/-- Whether a character is a decimal digit. -/
def isDigitChar (c : Char) : Bool :=
  48 ≤ c.toNat ∧ c.toNat ≤ 57

/-- The natural number denoted by a list of decimal digits. -/
def digitsToNat (cs : List Char) : Nat :=
  cs.foldl (fun acc c => acc * 10 + (c.toNat - 48)) 0

/-- JavaScript ToNumber on the primitive values that occur in the comparisons
the parser makes: `none` stands for NaN.  String conversion handles the
optionally signed integer literals that occur; other strings give NaN. -/
def jsToNumber : Value → Option Int
  | .num n => some n
  | .bool b => some (if b then 1 else 0)
  | .null => some 0
  | .undefined => none
  | .str s =>
    let t := ((s.data.dropWhile isSpaceChar).reverse.dropWhile isSpaceChar).reverse
    match t with
    | [] => some 0
    | '-' :: rest =>
      if rest ≠ [] ∧ rest.all isDigitChar then some (-(digitsToNat rest : Int)) else none
    | _ => if t.all isDigitChar then some (digitsToNat t : Int) else none
  | .list _ => none
  | .fn _ => none

/-- Decimal digit characters of a natural number (fuel-structural so that the
kernel can evaluate it; the fuel `n + 1` always suffices). -/
def natDigitsAux : Nat → Nat → List Char
  | 0, _ => []
  | fuel + 1, n =>
    if n < 10 then [Char.ofNat (48 + n)]
    else natDigitsAux fuel (n / 10) ++ [Char.ofNat (48 + n % 10)]

/-- Decimal rendering of a natural number. -/
def natRepr (n : Nat) : String :=
  ⟨natDigitsAux (n + 1) n⟩

/-- Decimal rendering of an integer (JavaScript number-to-string for the
integral values that occur). -/
def intRepr : Int → String
  | .ofNat n => natRepr n
  | .negSucc n => "-" ++ natRepr (n + 1)

mutual
/-- JavaScript ToString, as used for property keys and string coercion. -/
def valueToString : Value → String
  | .str s => s
  | .num n => intRepr n
  | .bool b => if b then "true" else "false"
  | .undefined => "undefined"
  | .null => "null"
  | .fn _ => "function"
  | .list vs => String.intercalate "," (listStrings vs)

/-- Element-wise string conversion of an array (inside
`Array.prototype.toString`, `undefined` and `null` elements render as the
empty string). -/
def listStrings : List Value → List String
  | [] => []
  | .undefined :: vs => "" :: listStrings vs
  | .null :: vs => "" :: listStrings vs
  | v :: vs => valueToString v :: listStrings vs
end

/-- JavaScript ToPrimitive: objects (arrays, functions) convert via ToString;
primitives are unchanged. -/
def jsToPrimitive : Value → Value
  | .list vs => .str (valueToString (.list vs))
  | .fn t => .str (valueToString (.fn t))
  | v => v

/-- JavaScript loose equality `==` restricted to the value universe above.
Arrays and functions compare by reference; every comparison the parser makes is
between a freshly allocated object and a stored one, so object-object loose
equality is `false` here. -/
def jsLooseEq (a b : Value) : Bool :=
  match a, b with
  | .undefined, .undefined => true
  | .undefined, .null => true
  | .null, .undefined => true
  | .null, .null => true
  | .undefined, _ => false
  | _, .undefined => false
  | .null, _ => false
  | _, .null => false
  | .str x, .str y => x = y
  | .num x, .num y => x = y
  | .bool _, b => numEq (jsToNumber a) (jsToNumber (jsToPrimitive b))
  | a, .bool _ => numEq (jsToNumber (jsToPrimitive a)) (jsToNumber b)
  | .num x, .str y => numEq (some x) (jsToNumber (.str y))
  | .str x, .num y => numEq (jsToNumber (.str x)) (some y)
  | .list _, .list _ => false
  | .fn _, .fn _ => false
  | .list vs, .str y => valueToString (.list vs) = y
  | .str x, .list vs => x = valueToString (.list vs)
  | .list vs, .num y => numEq (jsToNumber (jsToPrimitive (.list vs))) (some y)
  | .num x, .list vs => numEq (some x) (jsToNumber (jsToPrimitive (.list vs)))
  | .fn _, _ => false
  | _, .fn _ => false
where
  /-- NaN-aware numeric equality: NaN compares unequal to everything. -/
  numEq : Option Int → Option Int → Bool
  | some x, some y => x = y
  | _, _ => false

/-- JavaScript strict equality `===`.  Objects compare by reference; as above,
the object comparisons the parser makes are between distinct objects. -/
def jsStrictEq (a b : Value) : Bool :=
  match a, b with
  | .undefined, .undefined => true
  | .null, .null => true
  | .str x, .str y => x = y
  | .num x, .num y => x = y
  | .bool x, .bool y => x = y
  | _, _ => false

/-- Source `$stringRepeat(string, count)`: empty for `count < 1`, else `count`
copies (`new Array(count + 1).join(string)`). -/
def stringRepeat (s : String) (count : Int) : String :=
  if count < 1 then "" else String.join (List.replicate count.toNat s)

/-- JavaScript `String.prototype.replace` with a string pattern: replaces only
the FIRST occurrence of `pat` (the source relies on this in `_getRegexpNargs`
and in the destination derivation). -/
def replaceFirst (s pat repl : String) : String :=
  match findSub s.data pat.data 0 with
  | none => s
  | some i =>
    ⟨s.data.take i ++ repl.data ++ s.data.drop (i + pat.length)⟩
where
  /-- Index of the first occurrence of `pat` in `s`, if any. -/
  findSub : List Char → List Char → Nat → Option Nat
  | _, [], i => some i
  | [], _, _ => none
  | s@(_ :: rest), pat, i =>
    if pat.isPrefixOf s then some i else findSub rest pat (i + 1)

/-- Source `$stringLStrip(string, chars)` applied to a plain set of characters:
`string.replace(new RegExp("^[" + chars + "]+", "g"), "")`, i.e. drop the
longest leading run of characters of `chars`. -/
def stringLStrip (s chars : String) : String :=
  ⟨s.data.dropWhile (fun c => chars.data.contains c)⟩

/-- Split a character list at every occurrence of a nonempty separator (the
fuel `s.length + 1` always suffices: every step consumes at least one
character). -/
def splitOnAux (sep : List Char) : Nat → List Char → List Char → List String
  | 0, acc, _ => [⟨acc.reverse⟩]
  | fuel + 1, acc, s =>
    if sep ≠ [] ∧ sep.isPrefixOf s then
      (⟨acc.reverse⟩ : String) :: splitOnAux sep fuel [] (s.drop sep.length)
    else
      match s with
      | [] => [⟨acc.reverse⟩]
      | c :: rest => splitOnAux sep fuel (c :: acc) rest

/-- JavaScript `String.prototype.split(sep, limit)`: at most `limit` leading
fields are returned, the rest of the string is DISCARDED.  The source uses
`argString.split("=", 1)`, which therefore returns only the part before the
first `=` and loses the explicit value. -/
def jsSplitLimit (s sep : String) (limit : Nat) : List String :=
  (splitOnAux sep.data (s.length + 1) [] s.data).take limit

/-- JavaScript `String.prototype.indexOf` restricted to the uses in the source:
`-1` encoded as `none`. -/
def jsIndexOfChar (s : String) (c : Char) : Option Nat :=
  go s.data 0
where
  go : List Char → Nat → Option Nat
  | [], _ => none
  | x :: xs, i => if x = c then some i else go xs (i + 1)

/-- Whether `s.indexOf(c) >= 0` for a single character, as the prefix-character
tests in the source do. -/
def containsChar (s : String) (c : Char) : Bool :=
  s.data.contains c

/-!
### A small regular-expression engine

`_getRegexpNargs` builds regex source strings over the pattern alphabet
`A`/`O`/`-`, and `_parseOptional` and `_addAction` match tokens against the
negative-number regexp source string.  The engine below implements exactly the
ECMAScript constructs those strings use: literals, character classes, `.`,
`^`, `$`, capture groups, alternation and the greedy quantifiers `*`, `+`,
`?`, with the standard semantics of `String.prototype.match` for a regex
without flags: the match at the leftmost possible position, preferring earlier
alternatives and longer quantifier iteration counts (greedy backtracking).
-/

/-- Regular expressions.  `+` is desugared to `seq a (star a)` by the pattern
reader. -/
inductive RE where
  | eps
  | lit (c : Char)
  | cls (cs : List Char)
  | dot
  | anchorBegin
  | anchorEnd
  | seq (a b : RE)
  | alt (a b : RE)
  | star (a : RE)
  | opt (a : RE)
  | group (i : Nat) (a : RE)
deriving Repr, DecidableEq

/-- Record the text captured by group `i`. -/
def setCap (caps : List (Nat × List Char)) (i : Nat) (v : List Char) :
    List (Nat × List Char) :=
  match caps with
  | [] => [(i, v)]
  | (j, w) :: rest => if j = i then (i, v) :: rest else (j, w) :: setCap rest i v

/-- Structural size of a regex, used to bound the recursion depth of the
matcher. -/
def reSize : RE → Nat
  | .seq a b => reSize a + reSize b + 1
  | .alt a b => reSize a + reSize b + 1
  | .star a => reSize a + 1
  | .opt a => reSize a + 1
  | .group _ a => reSize a + 1
  | _ => 1

/-- All ways a regex can match a prefix of `s`, as pairs of the remaining input
and the captures, in the priority order of the ECMAScript backtracking engine:
greedy quantifiers try longer iteration counts first and alternations try the
left alternative first.  `fullLen` is the length of the whole subject, so
`fullLen - s.length` is the current position (used by the anchors).  `fuel`
bounds the recursion depth; every recursive call is one level deeper, every
level either descends into a strict subexpression or (the repetition case)
first consumes at least one character (ECMAScript stops a repetition whose
iteration matches the empty string, hence the filter), so a depth of
`(s.length + 1) * (reSize r + 1) + 1` — supplied by `jsMatchAt` — is never
exhausted. -/
def reRun (fullLen : Nat) : Nat → RE → List Char → List (Nat × List Char) →
    List (List Char × List (Nat × List Char))
  | 0, _, _, _ => []
  | fuel + 1, r, s, caps =>
    match r with
    | .eps => [(s, caps)]
    | .lit c =>
      match s with
      | [] => []
      | x :: xs => if x = c then [(xs, caps)] else []
    | .cls cs =>
      match s with
      | [] => []
      | x :: xs => if cs.contains x then [(xs, caps)] else []
    | .dot =>
      match s with
      | [] => []
      | x :: xs => if x = '\n' then [] else [(xs, caps)]
    | .anchorBegin => if fullLen = s.length then [(s, caps)] else []
    | .anchorEnd => if s.isEmpty then [(s, caps)] else []
    | .seq a b =>
      (reRun fullLen fuel a s caps).flatMap fun p => reRun fullLen fuel b p.1 p.2
    | .alt a b =>
      reRun fullLen fuel a s caps ++ reRun fullLen fuel b s caps
    | .opt a => reRun fullLen fuel a s caps ++ [(s, caps)]
    | .star a =>
      ((reRun fullLen fuel a s caps).filter fun p =>
          p.1.length < s.length).flatMap
        (fun p => reRun fullLen fuel (.star a) p.1 p.2) ++ [(s, caps)]
    | .group i a =>
      (reRun fullLen fuel a s caps).map fun p =>
        (p.1, setCap p.2 i (s.take (s.length - p.1.length)))

/-- Attempt a match at position `start` of `input`: the matched text and the
captures of the first outcome in priority order. -/
def jsMatchAt (re : RE) (input : List Char) (start : Nat) :
    Option (List Char × List (Nat × List Char)) :=
  let s := input.drop start
  match reRun input.length ((s.length + 1) * (reSize re + 1) + 1) re s [] with
  | [] => none
  | p :: _ => some (s.take (s.length - p.1.length), p.2)

/-- `String.prototype.match` with a regex without flags: `none` for `null`, or
the array `[full, group1, ..., groupN]` of the match at the leftmost matching
position (a group that did not participate is `undefined`, hence the inner
`Option`). -/
def jsMatchArr (re : RE) (ngroups : Nat) (subject : String) :
    Option (List (Option String)) :=
  go (subject.data.length + 1) 0
where
  go : Nat → Nat → Option (List (Option String))
  | 0, _ => none
  | remaining + 1, start =>
    match jsMatchAt re subject.data start with
    | some (m, caps) =>
      some ((some (⟨m⟩ : String)) ::
        (List.range ngroups).map fun i =>
          (caps.lookup (i + 1)).map fun l => (⟨l⟩ : String))
    | none => go remaining (start + 1)

/-- Commit the trailing atom of a sequence being parsed. -/
def rxFlush (acc : RE) (pending : Option RE) : RE :=
  match pending with
  | none => acc
  | some p => .seq acc p

mutual
/-- Parse an ECMAScript regex sequence (stopping at `)`/`|`/end of input).
`g` counts the capture groups seen so far; `acc` is the sequence parsed so
far and `pending` the trailing atom that a quantifier may still apply to.
`none` models a `SyntaxError` from the `RegExp` constructor; in particular a
quantifier with no atom before it (as in the source fragment `(A?*)`, where
the `*` follows the already-quantified `A?`) is such an error.  The lazy
quantifier forms (`*?` and friends), which no pattern built by the source
contains, are also reported as errors rather than modelled. -/
def rxSeqAux : Nat → List Char → Nat → RE → Option RE →
    Option (RE × List Char × Nat)
  | 0, _, _, _, _ => none
  | fuel + 1, cs, g, acc, pending =>
    match cs with
    | [] => some (rxFlush acc pending, [], g)
    | ')' :: rest => some (rxFlush acc pending, ')' :: rest, g)
    | '|' :: rest => some (rxFlush acc pending, '|' :: rest, g)
    | '*' :: rest =>
      match pending with
      | none => none
      | some p => rxSeqAux fuel rest g (.seq acc (.star p)) none
    | '+' :: rest =>
      match pending with
      | none => none
      | some p => rxSeqAux fuel rest g (.seq acc (.seq p (.star p))) none
    | '?' :: rest =>
      match pending with
      | none => none
      | some p => rxSeqAux fuel rest g (.seq acc (.opt p)) none
    | '(' :: rest =>
      match rxAltAux fuel rest (g + 1) with
      | some (inner, ')' :: rest2, g2) =>
        rxSeqAux fuel rest2 g2 (rxFlush acc pending) (some (.group (g + 1) inner))
      | _ => none
    | '[' :: rest =>
      let body := rest.takeWhile (· ≠ ']')
      match rest.dropWhile (· ≠ ']') with
      | ']' :: rest2 => rxSeqAux fuel rest2 g (rxFlush acc pending) (some (.cls body))
      | _ => none
    | '^' :: rest => rxSeqAux fuel rest g (.seq (rxFlush acc pending) .anchorBegin) none
    | '$' :: rest => rxSeqAux fuel rest g (.seq (rxFlush acc pending) .anchorEnd) none
    | '.' :: rest => rxSeqAux fuel rest g (rxFlush acc pending) (some .dot)
    | c :: rest => rxSeqAux fuel rest g (rxFlush acc pending) (some (.lit c))

/-- Parse an alternation: sequences separated by `|`, tried left first. -/
def rxAltAux : Nat → List Char → Nat → Option (RE × List Char × Nat)
  | 0, _, _ => none
  | fuel + 1, cs, g =>
    match rxSeqAux fuel cs g .eps none with
    | none => none
    | some (a, '|' :: rest, g1) =>
      match rxAltAux fuel rest g1 with
      | none => none
      | some (b, rest2, g2) => some (.alt a b, rest2, g2)
    | some (a, rest, g1) => some (a, rest, g1)
end

/-- Read a regex source string; `none` models a `SyntaxError` thrown by the
`RegExp` constructor.  The returned number is the count of capture groups. -/
def regexRead (pat : String) : Option (RE × Nat) :=
  match rxAltAux (2 * pat.length + 8) pat.data 0 with
  | some (re, [], g) => some (re, g)
  | _ => none

/-- Source `new RegExp(pattern)` (also the implicit conversion performed by
`String.prototype.match` when given a string): compile or throw. -/
def jsNewRegExp (pat : String) : Except JsErr (RE × Nat) :=
  match regexRead pat with
  | some r => .ok r
  | none => .error (.syntaxError pat)

/-- Source `subject.match(pattern)` with a string pattern: the pattern is
compiled first (possibly throwing a `SyntaxError`). -/
def jsStringMatch (subject pat : String) :
    Except JsErr (Option (List (Option String))) := do
  let (re, ng) ← jsNewRegExp pat
  return jsMatchArr re ng subject

/-!
### Data model: constants, Namespace, Action
-/

/-- Source line 192. -/
def SUPPRESS : String := "==SUPPRESS=="

/-- Source line 194. -/
def OPTIONAL : String := "?"

/-- Source line 195. -/
def ZERO_OR_MORE : String := "*"

/-- Source line 196. -/
def ONE_OR_MORE : String := "+"

/-- Source line 197. -/
def PARSER : String := "A..."

/-- Source line 198. -/
def REMAINDER : String := "..."

/-- Source `Namespace` (lines 1104-1118): a plain attribute bag.  Keys are
JavaScript property keys (strings — any other value used as a key is
stringified first); `set` overwrites an existing key in place or appends,
which matches JavaScript property insertion order; `get` of an absent key is
`undefined`. -/
structure Namespace where
  entries : List (String × Value)
deriving Repr, DecidableEq

/-- Property write on a `Namespace`. -/
def Namespace.set (ns : Namespace) (key : String) (v : Value) : Namespace :=
  ⟨go ns.entries⟩
where
  go : List (String × Value) → List (String × Value)
  | [] => [(key, v)]
  | (k, w) :: rest => if k = key then (key, v) :: rest else (k, w) :: go rest

/-- Property read on a `Namespace` (`undefined` when absent). -/
def Namespace.get (ns : Namespace) (key : String) : Value :=
  match ns.entries.lookup key with
  | some v => v
  | none => .undefined

/-- The concrete `Action` subclass of an action object, recorded for
dispatching `call`.  `append` is absent because `_AppendAction.initialize`
reads the undeclared global `nargs` (line 960) and therefore no append action
can be constructed; `parsers` actions likewise cannot be constructed because
`_SubParsersAction.initialize` sets `nargs` to the string `A...`, which fails
the numeric `nargs` assertion of the base constructor (line 885). -/
inductive ActionKind where
  | store
  | storeConstant
  | appendConstant
  | count
  | help
  | version
  | parsers
deriving Repr, DecidableEq

/-- Source `Action` attribute record: the fields assigned by
`Action.initialize` (lines 869-878), plus `version` (assigned by
`_VersionAction.initialize`, line 1018) and the subclass tag. -/
structure Action where
  kind : ActionKind
  optionStrings : List String
  destination : Value
  nargs : Value
  constant : Value
  defaultValue : Value
  type : Value
  choices : Value
  required : Value
  help : Value
  metavar : Value
  version : Value
deriving Repr, DecidableEq

/-- Source `Action.isPositional` (lines 901-903). -/
def Action.isPositional (a : Action) : Bool :=
  a.optionStrings.length = 0

/-- Source `Action.isOptional` (lines 898-900). -/
def Action.isOptional (a : Action) : Bool :=
  ¬ a.isPositional

/-- Source `Action.getName` (lines 888-897). -/
def Action.getName (a : Action) : Value :=
  if a.optionStrings.length > 0 then
    .str (String.intercalate "/" a.optionStrings)
  else if jsDefined a.metavar ∧ ¬ jsLooseEq a.metavar (.str SUPPRESS) then
    a.metavar
  else if jsDefined a.destination ∧ ¬ jsLooseEq a.destination (.str SUPPRESS) then
    a.destination
  else
    .null

/-- The options object handed to an `Action` constructor — also the `kwargs`
object of `addArgument` (the source keeps both in one plain object).  Note the
two distinct fields `defaultValue` and `defaultKey`: `addArgument` writes the
container-inherited default under the key `default` (line 1232, modelled by
`defaultKey`), while the constructor reads the key `defaultValue` (line 873),
so container-inherited defaults never reach the action.  `action` is the
`kwargs.action` entry naming the action class. -/
structure ActionOptions where
  action : Value := .undefined
  optionStrings : Value := .undefined
  destination : Value := .undefined
  nargs : Value := .undefined
  constant : Value := .undefined
  defaultValue : Value := .undefined
  defaultKey : Value := .undefined
  type : Value := .undefined
  choices : Value := .undefined
  required : Value := .undefined
  help : Value := .undefined
  metavar : Value := .undefined
  version : Value := .undefined
deriving Repr, DecidableEq

/-- Source `Action.initialize` (lines 866-887): assign the fields, then run the
three `assert.ok` checks (a failing `assert.ok` throws an `AssertionError`).
The claims feed only arrays of strings as `optionStrings`; other array elements
would be stringified by the option-string index anyway, so the extraction uses
`valueToString`. -/
def actionInit (kind : ActionKind) (options : ActionOptions) : Except JsErr Action := do
  let os := jsValue options.optionStrings (.list [])
  let required := jsValue options.required (.bool false)
  -- assert.ok(this.optionStrings instanceof Array)
  let osList ← match os with
    | .list vs => pure (vs.map valueToString)
    | _ => throw (.assertionError "optionStrings should be an array")
  -- if($defined(this.required)) assert.ok(typeof(this.required) == "boolean")
  if jsDefined required then
    match required with
    | .bool _ => pure ()
    | _ => throw (.assertionError "required should be a boolean")
  -- if($defined(this.nargs)) assert.ok(typeof(this.nargs) == "number")
  if jsDefined options.nargs then
    match options.nargs with
    | .num _ => pure ()
    | _ => throw (.assertionError "nargs should be a number")
  return { kind := kind
           optionStrings := osList
           destination := options.destination
           nargs := options.nargs
           constant := options.constant
           defaultValue := options.defaultValue
           type := jsValue options.type .null
           choices := options.choices
           required := required
           help := options.help
           metavar := options.metavar
           version := .undefined }

/-- JavaScript `<=` as used by `_StoreAction.initialize` (`this.nargs <= 0`):
numeric comparison after `ToPrimitive`/`ToNumber`, false when either side is
NaN — in particular `undefined <= 0` is false, so an unset `nargs` passes.
(The string-string lexicographic case of `<=` cannot arise there because the
base constructor only admits an unset or numeric `nargs`.) -/
def jsLE (a b : Value) : Bool :=
  match jsToNumber (jsToPrimitive a), jsToNumber (jsToPrimitive b) with
  | some x, some y => x ≤ y
  | _, _ => false

/-- Source `_StoreAction.initialize` (lines 909-921). -/
def storeActionInit (options : ActionOptions) : Except JsErr Action := do
  let a ← actionInit .store options
  if jsLE a.nargs (.num 0) then
    throw (.error ("nargs for store actions must be > 0; if you have nothing " ++
      "to store, actions such as store true or store const may be more appropriate"))
  if jsDefined a.constant ∧ ¬ jsLooseEq a.nargs (.str OPTIONAL) then
    throw (.error "nargs must be OPTIONAL to supply const")
  return a

/-- Source `_StoreConstantAction.initialize` (lines 929-933): force
`nargs = 0`, then the base constructor. -/
def storeConstantActionInit (options : ActionOptions) : Except JsErr Action :=
  actionInit .storeConstant { options with nargs := .num 0 }

/-- Source `_StoreTrueAction.initialize` (lines 940-945). -/
def storeTrueActionInit (options : ActionOptions) : Except JsErr Action :=
  storeConstantActionInit { options with
    constant := .bool true
    defaultValue := jsValue options.defaultValue (.bool false) }

/-- Source `_StoreFalseAction.initialize` (lines 949-954). -/
def storeFalseActionInit (options : ActionOptions) : Except JsErr Action :=
  storeConstantActionInit { options with
    constant := .bool false
    defaultValue := jsValue options.defaultValue (.bool true) }

/-- Source `_AppendAction.initialize` (lines 958-968): the guard on line 960
reads `nargs` — an undeclared identifier, not `this.nargs` — so the
constructor always throws a `ReferenceError`. -/
def appendActionInit (_options : ActionOptions) : Except JsErr Action :=
  .error (.referenceError "nargs is not defined")

/-- Source `_AppendConstantAction.initialize` (lines 977-980): the base
constructor, then `this.nargs = 0` (assigned after the asserts ran). -/
def appendConstantActionInit (options : ActionOptions) : Except JsErr Action := do
  let a ← actionInit .appendConstant options
  return { a with nargs := .num 0 }

/-- Source `_CountAction.initialize` (lines 989-991). -/
def countActionInit (options : ActionOptions) : Except JsErr Action :=
  actionInit .count options

/-- Source `_HelpAction.initialize` (lines 998-1004).  Line 1000 assigns the
misspelt key `defaulValue`, which nothing ever reads, so the intended
`SUPPRESS` default is silently dropped and `defaultValue` keeps the caller
value (usually `undefined`). -/
def helpActionInit (options : ActionOptions) : Except JsErr Action :=
  actionInit .help { options with
    destination := jsValue options.destination (.str SUPPRESS)
    nargs := .num 0 }

/-- Source `_VersionAction.initialize` (lines 1012-1019); the same misspelt
`defaulValue` assignment as the help action. -/
def versionActionInit (options : ActionOptions) : Except JsErr Action := do
  let a ← actionInit .version { options with
    destination := jsValue options.destination (.str SUPPRESS)
    nargs := .num 0 }
  return { a with version := options.version }

/-- Source `_SubParsersAction.initialize` (lines 1029-1041): it sets `nargs`
to the string constant `PARSER`, so the base constructor always fails its
numeric `nargs` assertion and no subparsers action can be constructed. -/
def subParsersActionInit (options : ActionOptions) : Except JsErr Action :=
  actionInit .parsers { options with
    destination := jsValue options.destination (.str SUPPRESS)
    nargs := .str PARSER }

/-!
### Container and parser state
-/

/-- A mutually exclusive group: its `required` flag and the positions (in the
shared action list) of its member actions (`_groupActions`). -/
structure MutexGroup where
  required : Bool
  groupActions : List Nat
deriving Repr, DecidableEq

/-- The state of an `ArgumentParser` (an `_ActionContainer`, lines 1120-1165,
plus the parser fields of lines 1548-1601 that parsing reads).  Actions live in
`actions` (the shared `_actions` array) and are identified by their position;
`optionStringActions` is the option-string index (JavaScript objects preserve
string-key insertion order).  The argument groups of a parser share the
underlying arrays with the parser, so the group routing of
`ArgumentParser._addAction` has no effect beyond the container-level
`_addAction` and is not represented; mutually exclusive groups are kept as
`actionGroupsMutex`.  `hasNegativeNumberOptionals` is the shared array of line
1164; `prefixCharsFile` is undefined for every parser the claims construct. -/
structure ParserState where
  program : String := "node"
  prefixChars : String := "-"
  conflictHandler : String := "error"
  argumentDefault : Value := .undefined
  actions : List Action := []
  optionStringActions : List (String × Nat) := []
  actionGroupsMutex : List MutexGroup := []
  defaults : List (String × Value) := []
  hasNegativeNumberOptionals : List Value := []
  prefixCharsFile : Value := .undefined
deriving Repr, DecidableEq

/-- Source line 1160: the negative-number regexp SOURCE STRING.  The source is
a plain (non-raw) string literal, so the backslashes of `\d` and `\.` are
consumed by the string lexer and the run-time pattern contains the letter `d`
and an unescaped dot instead of digit classes. -/
def regexpNegativeNumber : String := "^-d+$|^-d*.d+$"

/-- Source `$isCallable` (lines 140-154): true exactly for functions.  A falsy
value returns false immediately; a function has `call`; a primitive silently
ignores the probe assignment of line 149 (sloppy mode) and returns false; a
non-function object accepts the assignment and returns false. -/
def isCallable : Value → Bool
  | .fn _ => true
  | _ => false

/-- Lookup in `this._registries["type"]`, which holds exactly the two identity
functions registered by `ArgumentParser.initialize` (lines 1568-1569) under the
keys `"auto"` and `String(null) = "null"`.  Property access stringifies the
lookup key, so `action.type = null` finds the `"null"` entry; any other key
misses and `$value` falls back to the given default (`_registryGet`,
lines 1174-1176). -/
def typeRegistryGet (key dflt : Value) : Value :=
  if valueToString key = "auto" ∨ valueToString key = "null" then .fn "identity"
  else dflt

/-- Interpretation of function values: `identity` is the registered type
function `function(x) { return x; }`; any other tag stands for a user-supplied
callable, left uninterpreted (none occurs in the concrete parsers below —
a thrown result models a callable that throws, surfaced by `_getValue` as an
argument error). -/
def applyFn (tag : String) (v : Value) : Except JsErr Value :=
  match tag with
  | "identity" => .ok v
  | _ => .ok .undefined

/-- The action classes reachable through the `action` registry
(`_ActionContainer.initialize`, lines 1133-1143). -/
inductive ActionClass where
  | store
  | storeConstant
  | storeTrue
  | storeFalse
  | append
  | appendConstant
  | count
  | help
  | version
  | parsers
deriving Repr, DecidableEq

/-- Lookup in `this._registries["action"]`.  Note the keys: registration under
the value `null` produced the property key `String(null) = "null"`, so a lookup
with `undefined` (property key `"undefined"`) MISSES — an `addArgument` call
without an explicit `action` entry therefore does not find the default store
class. -/
def actionRegistryGet (key : Value) : Option ActionClass :=
  match valueToString key with
  | "null" => some .store
  | "store" => some .store
  | "store_constant" => some .storeConstant
  | "store_true" => some .storeTrue
  | "store_false" => some .storeFalse
  | "append" => some .append
  | "append_constant" => some .appendConstant
  | "count" => some .count
  | "help" => some .help
  | "version" => some .version
  | "parsers" => some .parsers
  | _ => none

/-- Dispatch an action-class constructor (the `new actionClass(kwargs)` of
line 1243). -/
def constructAction (cls : ActionClass) (kwargs : ActionOptions) : Except JsErr Action :=
  match cls with
  | .store => storeActionInit kwargs
  | .storeConstant => storeConstantActionInit kwargs
  | .storeTrue => storeTrueActionInit kwargs
  | .storeFalse => storeFalseActionInit kwargs
  | .append => appendActionInit kwargs
  | .appendConstant => appendConstantActionInit kwargs
  | .count => countActionInit kwargs
  | .help => helpActionInit kwargs
  | .version => versionActionInit kwargs
  | .parsers => subParsersActionInit kwargs

/-- Source `exit` (lines 2410-2417): optionally print the message to stderr,
then `process.exit($value(status, 0))`.  Stream output is out of scope; only
the status is modelled.  Every caller passes either a number or nothing. -/
def exitWith (status : Value) : Abort :=
  .exit (match jsValue status (.num 0) with
    | .num n => n
    | _ => 0)

/-- Source `error` (lines 2430-2433): print usage to stderr, then
`exit(2, program + ": error: " + message + EOL)`. -/
def errorExit (_message : String) : Abort :=
  .exit 2

/-- JavaScript `+` restricted to the operand shapes `_CountAction.call`
produces: string concatenation when either primitive is a string, numeric
addition otherwise (NaN operands cannot arise there, `undefined` stands in). -/
def jsPlus (a b : Value) : Value :=
  match jsToPrimitive a, jsToPrimitive b with
  | .str x, y => .str (x ++ valueToString y)
  | x, .str y => .str (valueToString x ++ y)
  | x, y =>
    match jsToNumber x, jsToNumber y with
    | some m, some n => .num (m + n)
    | _, _ => .undefined

/-- Source `call` methods: store (line 922), store-const (line 934, also
store-true/false), count (line 992), append-const (line 981, which reads the
undeclared identifier `$` and throws), help (lines 1005-1008: print help, then
`exit()` with no status, i.e. 0) and version (lines 1020-1025: format the
version text, then `exit(0, ...)`).  Help and version never return.  The
`parsers` arm is unreachable: no subparsers action can be constructed (its
constructor fails the numeric `nargs` assertion). -/
def actionCall (a : Action) (ns : Namespace) (values : Value) : Except Abort Namespace :=
  match a.kind with
  | .store => .ok (ns.set (valueToString a.destination) values)
  | .storeConstant => .ok (ns.set (valueToString a.destination) a.constant)
  | .count =>
    let dest := valueToString a.destination
    .ok (ns.set dest (jsPlus (jsValue (ns.get dest) (.num 0)) (.num 1)))
  | .appendConstant => .error (.thrown (.referenceError "$ is not defined"))
  | .help => .error (exitWith .undefined)
  | .version => .error (exitWith (.num 0))
  | .parsers => .error (.thrown (.error "unreachable: subparsers actions cannot be constructed"))

/-!
### Container operations: conflict handling and addArgument
-/

/-- The two conflict handlers resolvable by `_getHandler`. -/
inductive ConflictHandlerKind where
  | error
  | resolve
deriving Repr, DecidableEq

/-- Source `_getHandler` (lines 1419-1431): `"error"` and `"resolve"` name the
two existing `_handleConflict...` methods; any other value throws. -/
def getHandler (p : ParserState) : Except JsErr ConflictHandlerKind :=
  if p.conflictHandler = "error" then .ok .error
  else if p.conflictHandler = "resolve" then .ok .resolve
  else .error (.error ("Invalid conflictResolution value: " ++ p.conflictHandler))

/-- Update of the option-string index (JavaScript object assignment: overwrite
in place or append). -/
def ixSet (ix : List (String × Nat)) (key : String) (v : Nat) : List (String × Nat) :=
  match ix with
  | [] => [(key, v)]
  | (k, w) :: rest => if k = key then (key, v) :: rest else (k, w) :: ixSet rest key v

/-- Source `_removeAction` (lines 1292-1297): `indexOf` then
`this._actions.splice(actionIndex)` — single-argument `splice` removes every
element from `actionIndex` to the END, so the actions added after the victim
are removed with it. -/
def removeAction (p : ParserState) (id : Nat) : ParserState :=
  if id < p.actions.length then { p with actions := p.actions.take id } else p

/-- Source `_handleConflictResolve` (lines 1462-1479), effect of its first
loop iteration on the prior action, paired with the exception the iteration
then throws.  The statement
`action.optionStrings.splice(action.optionStrings.indexOf(optionString))`
truncates the option-string list AT the first occurrence of the conflicting
string (single-argument `splice` removes to the end, not just the one
element).  The next statement, `delete this._optionStringActions[optionString]`,
throws a `TypeError`: the handler was called as a bare function
(`conflictHandler(action, conflictOptionals)`, line 1449) and the `forEach`
callback of line 1465 is also unbound, so `this` is the global object and
`this._optionStringActions` is `undefined`.  The exception propagates out of
`addArgument`; no silent resolution ever happens. -/
def handleConflictResolve (prior : Action) (optionString : String) : Action × JsErr :=
  ({ prior with optionStrings := prior.optionStrings.take (prior.optionStrings.indexOf optionString) },
   .typeError "Cannot convert undefined or null to object")

/-- A placeholder action for index accesses that cannot miss (the option-string
index only holds valid positions). -/
def dummyAction : Action :=
  ⟨.store, [], .undefined, .undefined, .undefined, .undefined, .undefined, .undefined, .undefined, .undefined, .undefined, .undefined⟩

/-- Source `_checkConflict` (lines 1432-1451): collect the option strings of
the new action already present in the index, then invoke the selected handler.
The `error` handler throws an `ArgumentError` naming all conflicting strings —
its unbound `forEach` callback assigns through to the enclosing `action`
variable, so the error is attributed to the LAST conflicting prior action.
The `resolve` handler throws the `TypeError` described at
`handleConflictResolve`. -/
def checkConflict (p : ParserState) (action : Action) : Except Abort Unit := do
  let conflictOptionals := action.optionStrings.filterMap fun s =>
    (p.optionStringActions.lookup s).map fun id => (s, id)
  if conflictOptionals.length > 0 then
    let handler ← (getHandler p).mapError .thrown
    match handler with
    | .error =>
      let lastPrior :=
        match conflictOptionals.getLast? with
        | some (_, id) => (p.actions.get? id).elim Value.null Action.getName
        | none => .null
      throw (.thrown (.argumentError lastPrior
        ("Conflicting option string(s) : " ++
          String.intercalate ", " (conflictOptionals.map (·.1)))))
    | .resolve =>
      match conflictOptionals with
      | [] => pure ()
      | (s, id) :: _ =>
        throw (.thrown ((handleConflictResolve
          ((p.actions.get? id).getD dummyAction) s).2))
  else
    pure ()

/-- Source `_addAction` at container level (lines 1266-1291): conflict check,
append to `_actions`, index the option strings.  The negative-number flag push
of lines 1281-1287 is guarded by `!this._hasNegativeNumberOptionals`, the
negation of an array — always false — so the flag list is never extended. -/
def addActionState (p : ParserState) (action : Action) : Except Abort (ParserState × Nat) := do
  checkConflict p action
  let id := p.actions.length
  let ix := action.optionStrings.foldl (fun ix s => ixSet ix s id) p.optionStringActions
  return ({ p with actions := p.actions ++ [action], optionStringActions := ix }, id)

/-- `s[i]` on a string: `undefined` past the end. -/
def jsCharAt (s : String) (i : Nat) : Option Char :=
  s.data.get? i

/-- `chars.indexOf(s[i]) >= 0` where `s[i]` may be `undefined`: indexOf of
`undefined` searches for the literal text `undefined` and misses in every
prefix alphabet used here. -/
def containsCharOpt (chars : String) (c : Option Char) : Bool :=
  match c with
  | some c => containsChar chars c
  | none => false

/-- Source `_getPositionalKwargs` (lines 1346-1365).  Its first parameter is
named `destination` but `addArgument` (line 1221) passes the whole `args`
ARRAY, which later stringifies to the joined names when used as a property
key.  `[OPTIONAL, ZERO_OR_MORE].indexOf(kwargs.nargs)` (line 1354) compares
strictly; line 1357 compares loosely and reads the `default` key. -/
def getPositionalKwargs (destination : Value) (kwargs : ActionOptions) :
    Except Abort ActionOptions := do
  if jsDefined kwargs.required then
    throw (.thrown (.error "\"required\" is an invalid argument for positionals."))
  let kwargs :=
    if ¬ (jsStrictEq kwargs.nargs (.str OPTIONAL) ∨ jsStrictEq kwargs.nargs (.str ZERO_OR_MORE))
    then { kwargs with required := .bool true } else kwargs
  let kwargs :=
    if jsLooseEq kwargs.nargs (.str ZERO_OR_MORE) ∧ ¬ jsDefined kwargs.defaultKey
    then { kwargs with required := .bool true } else kwargs
  return { kwargs with destination := destination, optionStrings := .list [] }

/-- Source `_getOptionalKwargs` (lines 1366-1412): validate the prefixes,
split long option strings out, infer the destination from the first long
(else first) option string by stripping the leading prefix characters and
replacing the FIRST `-` by `_` (string `replace` replaces one occurrence). -/
def getOptionalKwargs (p : ParserState) (args : List String) (kwargs : ActionOptions) :
    Except Abort ActionOptions := do
  match args.find? (fun s => ¬ containsCharOpt p.prefixChars (jsCharAt s 0)) with
  | some bad =>
    throw (.thrown (.error ("Invalid option string \"" ++ bad ++
      "\": must start with a \"" ++ p.prefixChars ++ "\".")))
  | none => pure ()
  let optionStringsLong := args.filter fun s =>
    s.length > 1 ∧ containsCharOpt p.prefixChars (jsCharAt s 1)
  let destination ←
    if jsDefined kwargs.destination then
      pure kwargs.destination
    else
      match optionStringsLong.head?.orElse (fun _ => args.head?) with
      | none =>
        -- $stringLStrip(undefined, ...) calls a method of undefined
        throw (.thrown (.typeError "Cannot read properties of undefined"))
      | some osd =>
        let d := stringLStrip osd p.prefixChars
        if d.length = 0 then
          throw (.thrown (.error ("destination= is required for options like \"" ++ osd ++ "\"")))
        else
          pure (.str (replaceFirst d "-" "_"))
  return { kwargs with destination := destination, optionStrings := .list (args.map .str) }

/-- Source `_popActionClass` (lines 1413-1418) combined with the callability
check of `addArgument` (lines 1240-1242): resolve `kwargs.action` through the
action registry; a registry miss leaves the raw value, and a raw value that is
not callable makes `addArgument` throw `Unknown action ...`.  In particular an
absent `action` entry looks up the property key `"undefined"`, misses, and
throws (the store default was registered under the key `"null"`).  A
user-supplied constructor function would be callable; none occurs in the
claims, and the embedding reports it as an unmodelled construct. -/
def popActionClass (kwargs : ActionOptions) : Except Abort ActionClass := do
  match actionRegistryGet kwargs.action with
  | some cls => return cls
  | none =>
    if isCallable kwargs.action then
      throw (.thrown (.error "user-supplied action classes are not modelled"))
    else
      throw (.thrown (.error ("Unknown action \"" ++ valueToString kwargs.action ++ "\".")))

/-- Source `addArgument` (lines 1210-1253).  The positional/optional test is
`!args || args.length == 1 && prefixChars.indexOf(args[0][0]) < 0`; `!args` is
the negation of an array and always false.  Default inheritance (lines
1229-1236) writes the key `default` (`defaultKey` here), which the Action
constructor never reads.  After construction, the action type must resolve to
a callable through the type registry (lines 1246-1250), and the action is
added via `_addAction` (the parser-level wrapper routes through a group that
shares the container arrays). -/
def addArgument (p : ParserState) (args : List String) (kwargs : ActionOptions) :
    Except Abort (ParserState × Nat) := do
  let isPositionalDecl : Bool :=
    match args with
    | [a0] => ¬ containsCharOpt p.prefixChars (jsCharAt a0 0)
    | _ => false
  let kwargs ←
    if isPositionalDecl then do
      if jsDefined kwargs.destination then
        throw (.thrown (.error "destination supplied twice for positional argument"))
      getPositionalKwargs (.list (args.map .str)) kwargs
    else
      getOptionalKwargs p args kwargs
  let kwargs :=
    if ¬ jsDefined kwargs.defaultKey then
      match p.defaults.lookup (valueToString kwargs.destination) with
      | some d => { kwargs with defaultKey := d }
      | none =>
        if jsDefined p.argumentDefault then { kwargs with defaultKey := p.argumentDefault }
        else kwargs
    else kwargs
  let cls ← popActionClass kwargs
  let action ← (constructAction cls kwargs).mapError .thrown
  let typeFunc := typeRegistryGet action.type action.type
  if ¬ isCallable typeFunc then
    throw (.thrown (.error ("\"" ++ valueToString typeFunc ++ "\" is not callable")))
  addActionState p action

/-!
### The matching engine
-/

/-- Source `_getRegexpNargs` (lines 2201-2243), the regex SOURCE string before
compilation.  The `switch` compares strictly, so a numeric `nargs` falls to
the default branch; for an optional action the `-*`/`-` parts are removed by
two `String.prototype.replace` calls with STRING patterns, each of which
replaces only the FIRST occurrence (the Python original replaced all).  The
default branch computes `$stringRepeat("-*A", action.nargs - 1)`; when
`action.nargs - 1` is NaN (a non-numeric string that matched no case),
`new Array(NaN + 1)` inside `$stringRepeat` throws a `RangeError`, returned
here as `none` — unreachable for constructible actions, whose `nargs` is unset
or a number. -/
def getRegexpNargsSource (action : Action) : Option String :=
  let base : Option String :=
    match action.nargs with
    | .undefined => some "(-*A-*)"
    | .str s =>
      if s = OPTIONAL then some "(-*A?-*)"
      else if s = ZERO_OR_MORE then some "(-*[A-]*)"
      else if s = ONE_OR_MORE then some "(-*A[A-]*)"
      else if s = REMAINDER then some "([-AO]*)"
      else if s = PARSER then some "(-*A[-AO]*)"
      else (jsToNumber (.str s)).map fun n => "(-*A" ++ stringRepeat "-*A" (n - 1) ++ "-*)"
    | v => (jsToNumber (jsToPrimitive v)).map fun n => "(-*A" ++ stringRepeat "-*A" (n - 1) ++ "-*)"
  base.map fun b =>
    if action.isOptional then replaceFirst (replaceFirst b "-*" "") "-" "" else b

/-- Source `_getRegexpNargs` result: the compiled `RegExp` (or the `RangeError`
of the `NaN` repeat, or a `SyntaxError` from the `RegExp` constructor — the
latter arises for `nargs = "?"` on an optional, whose stripped source `(A?*)`
has a quantifier after a quantifier, but no such action can be constructed). -/
def getRegexpNargs (action : Action) : Except JsErr (RE × Nat) := do
  match getRegexpNargsSource action with
  | none => throw (.rangeError "Invalid array length")
  | some src => jsNewRegExp src

/-- Source `_matchArgument` (lines 2036-2057): match the arity regex against
the pattern string — `String.prototype.match` is NOT anchored, so the match may
start at any position — and return `matches[1].length`.  On a null match the
arity-specific argument error is thrown (the comparisons with `OPTIONAL` and
`ONE_OR_MORE` are loose). -/
def matchArgument (action : Action) (regexpArgStrings : String) : Except Abort Nat := do
  let (re, ng) ← (getRegexpNargs action).mapError .thrown
  match jsMatchArr re ng regexpArgStrings with
  | none =>
    let message :=
      if ¬ jsDefined action.nargs then "Expected one argument."
      else if jsLooseEq action.nargs (.str OPTIONAL) then "Expected at most one argument."
      else if jsLooseEq action.nargs (.str ONE_OR_MORE) then "Expected at least one argument."
      else "Expected " ++ valueToString action.nargs ++ " argument(s)"
    throw (.thrown (.argumentError action.getName message))
  | some arr =>
    match arr.get? 1 with
    | some (some g1) => return g1.length
    | _ => throw (.thrown (.typeError "Cannot read property length of undefined"))

/-- Source `_matchArgumentsPartial` (lines 2058-2081).  The pattern is
`actionSlice.map(a => this._getRegexpNargs(a)).join("")`: `_getRegexpNargs`
returns `RegExp` OBJECTS, which `join` stringifies as `/source/` — slash
delimiters included.  The subject string consists only of `A`/`O`/`-`, so a
pattern containing literal slashes can never match and every action slice
falls through; the loop then returns the empty count list.  On the (never
occurring) match, `matches.forEach(s => result.push(s.length))` pushes the
length of the FULL match as well as of every group. -/
def matchArgumentsPartial (actions : List Action) (regexpArgStrings : String) :
    Except Abort (List Nat) :=
  go actions.length
where
  go : Nat → Except Abort (List Nat)
  | 0 => return []
  | i + 1 => do
    let actionSlice := actions.take (i + 1)
    let srcs ← actionSlice.mapM fun a => do
      let _ ← (getRegexpNargs a).mapError Abort.thrown
      pure ("/" ++ (getRegexpNargsSource a).getD "" ++ "/")
    let pat := String.join srcs
    match ← (jsStringMatch regexpArgStrings pat).mapError Abort.thrown with
    | some arr =>
      arr.mapM fun o =>
        match o with
        | some s => pure s.length
        | none => throw (.thrown (.typeError "Cannot read property length of undefined"))
    | none => go i

/-- An option tuple `(action, optionString, argExplicit)` as recorded by
`_parseOptional`; the action is identified by its position in the action
list (`none` for a syntactically option-like token with no known action). -/
structure OptTuple where
  action : Option Nat
  optionString : String
  argExplicit : Option String
deriving Repr, DecidableEq

/-- Source `_getOptionTuples` (lines 2147-2200).  Both real branches iterate
with `this._optionStringActions.forEach(...)` — but `_optionStringActions` is
a plain object, which has NO `forEach` method, so both branches throw a
`TypeError` before producing any tuple.  The final branch (first character not
a prefix character, unreachable from `_parseOptional`) calls `this.error`,
which exits with status 2. -/
def getOptionTuples (p : ParserState) (optionString : String) :
    Except Abort (List OptTuple) := do
  if containsCharOpt p.prefixChars (jsCharAt optionString 0) then
    -- two-prefix and one-prefix branches both reach the object forEach
    throw (.thrown (.typeError "this._optionStringActions.forEach is not a function"))
  else
    throw (errorExit ("Unexpected option string: " ++ optionString ++ "."))

/-- Source `_parseOptional` (lines 2082-2146).  Notable details, each embedded
as the code runs (not as the comments intend):
* the `!$defined(argString)` guard never fires for a string (even the empty
  string is defined); an empty string falls out at the prefix test, because
  `""[0]` is `undefined` and `indexOf(undefined)` misses;
* the `=` handling splits with `split("=", 1)`, which keeps ONLY the part
  before the `=`; the explicit value becomes `undefined` and is lost;
* any token that reaches `_getOptionTuples` is answered with the `TypeError`
  described there;
* the negative-number branch tests
  `argString.match(regexpNegativeNumber) && !this._hasNegativeNumberOptionals`,
  and the second conjunct negates an ARRAY, which is always truthy, so the
  branch never classifies a token as positional. -/
def parseOptional (p : ParserState) (argString : String) :
    Except Abort (Option OptTuple) := do
  if ¬ jsDefined (.str argString) then
    return none
  if ¬ containsCharOpt p.prefixChars (jsCharAt argString 0) then
    return none
  match p.optionStringActions.lookup argString with
  | some id => return some ⟨some id, argString, none⟩
  | none =>
  if argString.length = 1 then
    return none
  let eqHit : Option OptTuple :=
    if containsChar argString '=' then
      let parts := jsSplitLimit argString "=" 1
      let optionString := parts.getD 0 ""
      let argExplicit : Option String := parts.get? 1
      match p.optionStringActions.lookup optionString with
      | some id => some ⟨some id, optionString, argExplicit⟩
      | none => none
    else none
  match eqHit with
  | some t => return some t
  | none =>
  let optionTuples ← getOptionTuples p argString
  if optionTuples.length > 1 then
    throw (errorExit ("Ambiguous option: \"" ++ argString ++ "\" could match " ++
      String.intercalate ", " (optionTuples.map (·.optionString)) ++ "."))
  else if optionTuples.length = 1 then
    return some (optionTuples.getD 0 ⟨none, "", none⟩)
  else
  let m ← (jsStringMatch argString regexpNegativeNumber).mapError Abort.thrown
  if m.isSome ∧ ¬ jsTruthy (.list p.hasNegativeNumberOptionals) then
    return none
  if containsChar argString ' ' then
    return none
  return some ⟨none, argString, none⟩

/-- Source `_getValue` (lines 2295-2320): resolve the type function through the
registry (falling back to the raw `type` value), require it callable, apply it;
an exception from the callable is rethrown as `Invalid ... value: ...`. -/
def getValue (action : Action) (argString : Value) : Except Abort Value := do
  let typeFunc := typeRegistryGet action.type action.type
  match typeFunc with
  | .fn tag =>
    match applyFn tag argString with
    | .ok v => return v
    | .error _ =>
      throw (.thrown (.argumentError action.getName
        ("Invalid " ++ valueToString action.type ++ " value: " ++ valueToString argString)))
  | _ =>
    throw (.thrown (.argumentError action.getName
      (valueToString typeFunc ++ " is not callable")))

/-- Source `_checkValue` (lines 2321-2326): when `choices` is defined, the
converted value must be found by `indexOf` (strict equality).  A non-array
`choices` has no `indexOf` and would throw; only the unconstructible
subparsers action carries one. -/
def checkValue (action : Action) (value : Value) : Except Abort Unit :=
  if jsDefined action.choices then
    match action.choices with
    | .list cs =>
      if cs.any (fun c => jsStrictEq c value) then pure ()
      else
        throw (.thrown (.argumentError action.getName
          ("Invalid choice: " ++ valueToString value ++ " (choose from [" ++
            String.intercalate ", " (cs.map valueToString) ++ "])")))
    | _ => throw (.thrown (.typeError "action.choices.indexOf is not a function"))
  else
    pure ()

/-- Source `_getValues` (lines 2247-2294).  The two `!argStrings` guards
negate an ARRAY and are therefore always false (embedded as written): the
`OPTIONAL`-default branch and the `ZERO_OR_MORE`-positional-default branch are
dead code, and an empty argument list falls through to the final branch, which
maps it to the EMPTY LIST. -/
def getValues (action : Action) (argStrings : List String) : Except Abort Value := do
  let argStrings :=
    if ¬ (jsStrictEq action.nargs (.str PARSER) ∨ jsStrictEq action.nargs (.str REMAINDER))
    then argStrings.filter (· ≠ "--") else argStrings
  let argsValue : Value := .list (argStrings.map .str)
  if ¬ jsTruthy argsValue ∧ jsLooseEq action.nargs (.str OPTIONAL) then
    let value := if action.isOptional then action.constant else action.defaultValue
    match value with
    | .str s => do
      let v ← getValue action (.str s)
      checkValue action v
      return v
    | v => return v
  else if ¬ jsTruthy argsValue ∧ jsLooseEq action.nargs (.str ZERO_OR_MORE)
      ∧ action.isPositional then
    let value := jsValue action.defaultValue argsValue
    checkValue action value
    return value
  else if argStrings.length = 1 ∧ (¬ jsDefined action.nargs ∨ jsLooseEq action.nargs (.str OPTIONAL)) then
    let argString := argStrings.getD 0 ""
    let value ← getValue action (.str argString)
    checkValue action value
    return value
  else if jsLooseEq action.nargs (.str REMAINDER) then
    return .list (← argStrings.mapM fun v => getValue action (.str v))
  else if jsLooseEq action.nargs (.str PARSER) then
    let vs ← argStrings.mapM fun v => getValue action (.str v)
    checkValue action (vs.getD 0 .undefined)
    return .list vs
  else
    let vs ← argStrings.mapM fun v => getValue action (.str v)
    vs.forM fun v => checkValue action v
    return .list vs

/-!
### The main parsing loop (`_parseArgsKnown`, lines 1714-1992)
-/

/-- `pattern.substr(i)`. -/
def substrFrom (s : String) (i : Nat) : String :=
  ⟨s.data.drop i⟩

/-- The mutable state of one `_parseArgsKnown` run: the namespace, the extras,
the `actionsSeen`/`actionsSeenNonDefault` lists (action positions — the source
compares the objects by identity), the remaining positionals and the cursor. -/
structure ParseRun where
  ns : Namespace
  extras : List String
  actionsSeen : List Nat
  actionsSeenNonDefault : List Nat
  positionals : List Nat
  startIndex : Nat
deriving Repr, DecidableEq

/-- Source lines 1717-1727: map every mutex-group member to its siblings.  The
source keys this map by the action object itself, whose property-key form is
its string rendering; the actions of the parsers considered render distinctly,
so keying by action position is equivalent. -/
def buildConflicts (groups : List MutexGroup) : List (Nat × List Nat) :=
  groups.foldl
    (fun m g =>
      g.groupActions.enum.foldl
        (fun m q =>
          conflictsAdd m q.2 (g.groupActions.take q.1 ++ g.groupActions.drop (q.1 + 1)))
        m)
    []
where
  conflictsAdd (m : List (Nat × List Nat)) (key : Nat) (vs : List Nat) :
      List (Nat × List Nat) :=
    match m with
    | [] => [(key, vs)]
    | (k, w) :: rest =>
      if k = key then (k, w ++ vs) :: rest else (k, w) :: conflictsAdd rest key vs

/-- Source lines 1733-1764: classify each token, producing the sparse
`optionStringIndices` (dense here, `none` at non-option positions) and the
`O`/`A`/`-` pattern string.  After a literal `--` every token is `A`. -/
def classify (p : ParserState) (argStrings : List String) :
    Except Abort (List (Option OptTuple) × String) := do
  let r ← argStrings.foldlM
    (fun (acc : List (Option OptTuple) × List Char × Bool) argString => do
      let (inds, pat, found) := acc
      if found then
        return (inds ++ [none], pat ++ ['A'], true)
      else if argString = "--" then
        return (inds ++ [none], pat ++ ['-'], true)
      else
        match ← parseOptional p argString with
        | some t => return (inds ++ [some t], pat ++ ['O'], false)
        | none => return (inds ++ [none], pat ++ ['A'], false))
    ([], [], false)
  return (r.1, ⟨r.2.1⟩)

/-- `optionStringIndices.length - 1` (line 1910): a sparse JavaScript array is
as long as one past its last assigned index, so this is the last option
position (`none` meaning `-1`, when no token is an option). -/
def lastOptIndex (indices : List (Option OptTuple)) : Option Nat :=
  (indices.enum.filterMap fun q => q.2.map fun _ => q.1).getLast?

/-- Source lines 1914-1920: the first option position at or after the cursor. -/
def findNextOpt (indices : List (Option OptTuple)) (start : Nat) : Option Nat :=
  ((indices.enum.drop start).find? fun q => q.2.isSome).map (·.1)

/-- Source `takeAction` (lines 1773-1794): record the action as seen, convert
its raw strings, run the mutex-conflict check when the value differs (loosely)
from the default, and invoke the action unless the value is `SUPPRESS`. -/
def takeAction (p : ParserState) (conflicts : List (Nat × List Nat)) (st : ParseRun)
    (id : Nat) (args : List String) : Except Abort ParseRun := do
  let action := (p.actions.get? id).getD dummyAction
  let st := { st with actionsSeen := st.actionsSeen ++ [id] }
  let argValues ← getValues action args
  let st ←
    if ¬ jsLooseEq argValues action.defaultValue then do
      let st := { st with actionsSeenNonDefault := st.actionsSeenNonDefault ++ [id] }
      ((conflicts.lookup id).getD []).forM fun cid =>
        if st.actionsSeenNonDefault.contains cid then
          throw (.thrown (.argumentError action.getName
            ("Not allowed with argument \"" ++
              valueToString ((p.actions.get? cid).getD dummyAction).getName ++ "\".")))
        else pure ()
      pure st
    else pure st
  if ¬ jsLooseEq argValues (.str SUPPRESS) then
    let ns ← actionCall action st.ns argValues
    return { st with ns := ns }
  else
    return st

/-- Source `consumeOptional` (lines 1797-1879).  With an explicit argument and
a zero-arity single-dash option, the source attempts short-option clustering
with `this.prefixChars.forEach(...)` — a STRING has no `forEach`, so that path
throws a `TypeError` (it is unreachable anyway, since `_parseOptional` never
produces an explicit argument — see `jsSplitLimit`).  Without an explicit
argument the arity regex is matched against the pattern suffix after the
option and the matched count of tokens is consumed. -/
def consumeOptional (p : ParserState) (conflicts : List (Nat × List Nat))
    (argStrings : List String) (pattern : String) (indices : List (Option OptTuple))
    (st : ParseRun) : Except Abort ParseRun := do
  let tuple := (indices.getD st.startIndex none).getD ⟨none, "", none⟩
  match tuple.action with
  | none =>
    return { st with
      extras := st.extras ++ [argStrings.getD st.startIndex ""]
      startIndex := st.startIndex + 1 }
  | some id =>
    let action := (p.actions.get? id).getD dummyAction
    match tuple.argExplicit with
    | some argExplicit => do
      let argCount ← matchArgument action "A"
      if argCount = 0 ∧ ¬ containsCharOpt p.prefixChars (jsCharAt tuple.optionString 1) then
        throw (.thrown (.typeError "this.prefixChars.forEach is not a function"))
      else if argCount = 1 then do
        let stop := st.startIndex + 1
        let st ← takeAction p conflicts st id [argExplicit]
        return { st with startIndex := stop }
      else
        throw (.thrown (.argumentError action.getName
          ("Ignored explicit argument \"" ++ argExplicit ++ "\".")))
    | none => do
      let start := st.startIndex + 1
      let argCount ← matchArgument action (substrFrom pattern start)
      let stop := start + argCount
      let args := (argStrings.drop start).take argCount
      let st ← takeAction p conflicts st id args
      return { st with startIndex := stop }

/-- Source `consumePositionals` (lines 1885-1906): match the concatenated
positional arity regexes (which, through the `RegExp` stringification in
`_matchArgumentsPartial`, never match, so `argCounts` is always empty), then
iterate over ALL remaining positionals — not only the matched prefix — feeding
each `$value(argCounts[i], 0)` tokens, and finally drop the first
`argCounts.length` positionals. -/
def consumePositionals (p : ParserState) (conflicts : List (Nat × List Nat))
    (argStrings : List String) (pattern : String) (st : ParseRun) :
    Except Abort ParseRun := do
  let posActions := st.positionals.map fun i => (p.actions.get? i).getD dummyAction
  let argCounts ← matchArgumentsPartial posActions (substrFrom pattern st.startIndex)
  let st2 ← go st st.positionals argCounts
  return { st2 with positionals := st2.positionals.drop argCounts.length }
where
  go : ParseRun → List Nat → List Nat → Except Abort ParseRun
  | st, [], _ => pure st
  | st, id :: rest, counts => do
    let argCount := counts.headD 0
    let args := (argStrings.drop st.startIndex).take argCount
    let st := { st with startIndex := st.startIndex + argCount }
    let st ← takeAction p conflicts st id args
    go st rest (counts.drop 1)

/-- Source lines 1935-1943 inside the main loop: when the cursor is not on an
option position, the tokens up to the next option become extras and the cursor
jumps there; then the option is consumed. -/
def stepOptional (p : ParserState) (conflicts : List (Nat × List Nat))
    (argStrings : List String) (pattern : String) (indices : List (Option OptTuple))
    (next : Nat) (st : ParseRun) : Except Abort ParseRun := do
  let st :=
    if (indices.getD st.startIndex none).isNone then
      { st with
        extras := st.extras ++ (argStrings.drop st.startIndex).take (next - st.startIndex)
        startIndex := next }
    else st
  consumeOptional p conflicts argStrings pattern indices st

/-- Source lines 1912-1944, the alternating consumption loop: while the cursor
is at or before the last option position, consume positionals up to the next
option (restarting the loop when that made progress), then the option itself.
Each iteration strictly advances the cursor, so `argStrings.length + 1` fuel
is never exhausted. -/
def mainLoop (p : ParserState) (conflicts : List (Nat × List Nat))
    (argStrings : List String) (pattern : String) (indices : List (Option OptTuple))
    (maxIdx : Option Nat) : Nat → ParseRun → Except Abort ParseRun
  | 0, _ => throw (.thrown (.error "loop fuel exhausted"))
  | fuel + 1, st =>
    match maxIdx with
    | none => return st
    | some m =>
      if st.startIndex > m then return st
      else
        match findNextOpt indices st.startIndex with
        | none =>
          -- cannot happen while the cursor is at or before the last option
          -- position; the source would crash on the undefined tuple
          throw (.thrown (.typeError "optionTuple is undefined"))
        | some next =>
          if st.startIndex ≠ next then do
            let st2 ← consumePositionals p conflicts argStrings pattern st
            if st2.startIndex > st.startIndex then
              mainLoop p conflicts argStrings pattern indices maxIdx fuel st2
            else do
              let st3 ← stepOptional p conflicts argStrings pattern indices next st2
              mainLoop p conflicts argStrings pattern indices maxIdx fuel st3
          else do
            let st3 ← stepOptional p conflicts argStrings pattern indices next st
            mainLoop p conflicts argStrings pattern indices maxIdx fuel st3

/-- Source `_readArgs` (lines 1993-2000): copy the list; when
`prefixCharsFile` is defined, expand `@file` arguments from disk (lines
2001-2035).  No parser in this development defines `prefixCharsFile`, so the
expansion branch is unreachable and not modelled further. -/
def readArgs (p : ParserState) (args : List String) : Except Abort (List String) :=
  if jsDefined p.prefixCharsFile then
    .error (.thrown (.error "argument-file expansion not modelled"))
  else
    .ok args

/-- Source `_parseArgsKnown` (lines 1714-1992): build the mutex-conflict map,
classify the tokens, run the alternating loop, consume trailing positionals,
account extras, then the three post-checks.  Note the last one: the required
mutex-group check reports the error `if(found)` — when a member WAS seen with
a non-default value — although its own comment says "if no actions were used,
report the error". -/
def parseArgsKnownInner (p : ParserState) (argStrings0 : List String) (ns : Namespace) :
    Except Abort (Namespace × List String) := do
  let argStrings ← readArgs p argStrings0
  let conflicts := buildConflicts p.actionGroupsMutex
  let (indices, pattern) ← classify p argStrings
  let positionals := (p.actions.enum.filter fun q => q.2.isPositional).map (·.1)
  let st0 : ParseRun := ⟨ns, [], [], [], positionals, 0⟩
  let st ← mainLoop p conflicts argStrings pattern indices (lastOptIndex indices)
    (argStrings.length + 1) st0
  let st ← consumePositionals p conflicts argStrings pattern st
  let extras := st.extras ++ argStrings.drop st.startIndex
  if st.positionals.length > 0 then
    throw (errorExit "Too few arguments")
  p.actions.enum.forM fun q =>
    if jsTruthy q.2.required ∧ ¬ st.actionsSeen.contains q.1 then
      -- line 1961; the `%name%` placeholder is never substituted because
      -- `error` takes a single argument
      throw (errorExit "Argument \"%name%\" is required")
    else pure ()
  p.actionGroupsMutex.forM fun g =>
    if g.required then
      let found := g.groupActions.any fun id => st.actionsSeenNonDefault.contains id
      if found then
        throw (errorExit "One of the arguments is required.")
      else pure ()
    else pure ()
  return (st.ns, extras)

/-- Source lines 1692-1696, the value the default-seeding step of
`parseArgsKnown` stores: the raw default, or — when the default is a string —
the default coerced through the type function. -/
def seededDefault (action : Action) : Except Abort Value :=
  match action.defaultValue with
  | .str s => getValue action (.str s)
  | v => pure v

/-- Source `parseArgsKnown` (lines 1675-1713): seed each action default that
is not `SUPPRESS` (coercing string defaults through the type function), merge
the container defaults, then run `_parseArgsKnown` inside `try`/`catch` — a
thrown exception is routed to `error`, which exits with status 2, while a
`process.exit` from inside (help/version, or `error` itself) passes through.
The claims always call without a namespace argument, so a fresh `Namespace`
is used. -/
def parseArgsKnown (p : ParserState) (args : List String) :
    Except Abort (Namespace × List String) := do
  let ns : Namespace := ⟨[]⟩
  let ns ← p.actions.foldlM
    (fun (ns : Namespace) action => do
      if ¬ jsLooseEq action.destination (.str SUPPRESS)
          ∧ ¬ jsDefined (ns.get (valueToString action.destination))
          ∧ ¬ jsLooseEq action.defaultValue (.str SUPPRESS) then
        let dv ← seededDefault action
        return ns.set (valueToString action.destination) dv
      else
        return ns)
    ns
  let ns := p.defaults.foldl
    (fun (ns : Namespace) q => if ¬ jsDefined (ns.get q.1) then ns.set q.1 q.2 else ns) ns
  match parseArgsKnownInner p args ns with
  | .ok r => .ok r
  | .error (.exit s) => .error (.exit s)
  | .error (.thrown _) => .error (errorExit "caught exception")

/-- Source `parseArgs` (lines 1665-1674): `parseArgsKnown`, then an error exit
when any extras remain. -/
def parseArgs (p : ParserState) (args : List String) : Except Abort Namespace := do
  let (ns, argv) ← parseArgsKnown p args
  if argv.length > 0 then
    throw (errorExit ("Unrecognized arguments: " ++ String.intercalate " " argv ++ "."))
  return ns

/-!
### Concrete parsers

The parsers the claims are evaluated on.  `new ArgumentParser({program:"foo",
help:false})` yields the default container state with program `foo`: help is
disabled, no version argument, prefix characters `-`, conflict handler
`error` (`ArgumentParser.initialize`, lines 1548-1601).  The states are built
through the embedded `addArgument`, mirroring the declarations of the
repository test suite.
-/

/-- The empty parser `new ArgumentParser({program: "foo", help: false})`. -/
def baseParser : ParserState := { program := "foo" }

/-- `kwargs` of the test declaration
`addArgument(["-f", "--foo"], {action: "store", defaultValue: "defaultVal"})`
(test/argparse.test.js, "parseArgs() / with default argument"). -/
def storeFooKw : ActionOptions :=
  { action := .str "store", defaultValue := .str "defaultVal" }

/-- Result of declaring `-f` / `--foo` on the base parser. -/
def parserFooE : Except Abort (ParserState × Nat) :=
  addArgument baseParser ["-f", "--foo"] storeFooKw

/-- The parser with the single store optional `-f` / `--foo` (defaulting
`defaultVal`). -/
def parserFoo : ParserState :=
  match parserFooE with
  | .ok (p, _) => p
  | .error _ => {}

/-- Result of the test declaration
`addArgument(["-r", "--required"], {action: "store", required: true,
defaultValue: "bar"})` ("parseArgs() / with required argument"). -/
def parserRequiredE : Except Abort (ParserState × Nat) :=
  addArgument baseParser ["-r", "--required"]
    { action := .str "store", required := .bool true, defaultValue := .str "bar" }

/-- The parser with the single required store optional `-r` / `--required`. -/
def parserRequired : ParserState :=
  match parserRequiredE with
  | .ok (p, _) => p
  | .error _ => {}

/-- Two store optionals `-x` and `-y` declared on the base parser. -/
def parserXYE : Except Abort ParserState := do
  let (p, _) ← addArgument baseParser ["-x"] { action := .str "store" }
  let (p, _) ← addArgument p ["-y"] { action := .str "store" }
  pure p

/-- The parser with store optionals `-x` and `-y` and no groups. -/
def parserXY : ParserState :=
  match parserXYE with
  | .ok p => p
  | .error _ => {}

/-- `parserXY` with `-x` and `-y` in a required mutually exclusive group, as
`addArgumentGroup({required: true}, true)` followed by adding both actions
through the group produces (`_MutuallyExclusiveGroup._addAction` delegates to
the container and records the member, lines 1525-1532). -/
def parserMutex : ParserState :=
  { parserXY with actionGroupsMutex := [⟨true, [0, 1]⟩] }

/-- The base parser with the help action of the repository test
`addArgument(["-h", "--help"], {action: "help", help: "foo bar"})`. -/
def parserHelpE : Except Abort (ParserState × Nat) :=
  addArgument baseParser ["-h", "--help"] { action := .str "help", help := .str "foo bar" }

/-- The parser declaring only `-h` / `--help`. -/
def parserHelp : ParserState :=
  match parserHelpE with
  | .ok (p, _) => p
  | .error _ => {}

/-- A parser with the `resolve` conflict handler and the store optional
`-f` / `--foo` declared (the "prior action" of claim C5). -/
def parserResolveE : Except Abort (ParserState × Nat) :=
  addArgument { conflictHandler := "resolve" } ["-f", "--foo"] { action := .str "store" }

/-- The `resolve` parser holding the prior `-f` / `--foo` action. -/
def parserResolve : ParserState :=
  match parserResolveE with
  | .ok (p, _) => p
  | .error _ => {}

/-- The prior `-f` / `--foo` action of the `resolve` parser. -/
def priorFooAction : Action :=
  (parserResolve.actions.get? 0).getD dummyAction

/-- A store optional `-x` with `nargs` unset (the kwargs after
`_getOptionalKwargs`). -/
def storeXUnset : Action :=
  match storeActionInit { optionStrings := .list [.str "-x"], destination := .str "x" } with
  | .ok a => a
  | .error _ => dummyAction

/-- A store optional `-x` with `nargs = 2`. -/
def storeXTwo : Action :=
  match storeActionInit
      { optionStrings := .list [.str "-x"], destination := .str "x", nargs := .num 2 } with
  | .ok a => a
  | .error _ => dummyAction

/-- A positional action record with `nargs = "*"` and the default `["d"]`, as
claim C7 presupposes.  (No such action can pass the constructor assertion on
`nargs`; `_getValues` is a plain method on the record, so the claim is
evaluated against it directly.) -/
def starPositional : Action :=
  { dummyAction with
    destination := .str "foo"
    nargs := .str ZERO_OR_MORE
    defaultValue := .list [.str "d"] }

/-- A help action as built by `helpActionInit` with no options. -/
def helpAction : Action :=
  match helpActionInit {} with
  | .ok a => a
  | .error _ => dummyAction

/-- A version action as built by `versionActionInit` with a version string. -/
def versionAction : Action :=
  match versionActionInit { version := .str "0.1" } with
  | .ok a => a
  | .error _ => dummyAction

/-- The parser state `_addAction` produces for a single action on an otherwise
empty default parser: used by the amended claim C3 ("a parser declaring only
`A`").  The conflict check on an empty index finds nothing, the action is
appended at position 0 and its option strings are indexed. -/
def soleParser (a : Action) : ParserState :=
  match addActionState {} a with
  | .ok (p, _) => p
  | .error _ => {}

/-!
### Statement helpers
-/

/-- Whether a value is a number (the shape the `nargs` assertion accepts). -/
def Value.isNum : Value → Bool
  | .num _ => true
  | _ => false

/-- Whether an `optionStrings` option passes the array assertion after the
`$value(..., [])` defaulting: an array, or unset (then the default `[]` is
used). -/
def isArrayOrUnset : Value → Bool
  | .list _ => true
  | .undefined => true
  | .null => true
  | _ => false

/-- Whether a `required` option passes the boolean assertion after the
`$value(..., false)` defaulting: a boolean, or unset (then `false` is used). -/
def isBoolOrUnset : Value → Bool
  | .bool _ => true
  | .undefined => true
  | .null => true
  | _ => false

/-- On an empty container, `_addAction` finds no conflict, appends the action
at position 0 and indexes its option strings. -/
theorem addActionState_empty (a : Action) :
    addActionState {} a =
      .ok ({ actions := [a]
             optionStringActions := a.optionStrings.foldl (fun ix s => ixSet ix s 0) [] },
           0) := by
  have hfm : ∀ l : List String,
      (l.filterMap fun _ => (none : Option (String × Nat))) = [] := by
    intro l
    induction l with
    | nil => rfl
    | cons x xs ih => simp [List.filterMap_cons, ih]
  simp [addActionState, checkConflict, hfm]
  rfl

/-!
### Claim theorems
-/

set_option maxHeartbeats 4000000 in
/-- C1: for the one-value optional `-f` / `--foo` (nargs unset), parsing
`[s, v]` and `[s=v]` do NOT produce equal namespaces, although the source's
own test suite asserts they both give `{foo: "baz"}`: `split("=", 1)` keeps
only the part before the `=`, the recorded tuple carries no explicit value,
the option then matches zero following tokens against its (mis-stripped)
arity regex and stores the empty list. -/
theorem c1_equals_form_loses_value :
    parseArgs parserFoo ["--foo", "baz"] = .ok ⟨[("foo", .str "baz")]⟩ ∧
    parseArgs parserFoo ["--foo=baz"] = .ok ⟨[("foo", .list [])]⟩ ∧
    parseArgs parserFoo ["-f", "baz"] = .ok ⟨[("foo", .str "baz")]⟩ ∧
    parseArgs parserFoo ["-f=baz"] = .ok ⟨[("foo", .list [])]⟩ ∧
    (Value.str "baz" : Value) ≠ .list [] :=
  ⟨by rfl, by rfl, by rfl, by rfl, by decide⟩

set_option maxHeartbeats 4000000 in
/-- C2: for an optional action the source removes only the FIRST `-*` and then
the first `-` from the arity fragment (string `replace` replaces one
occurrence), so unset `nargs` compiles to `(A*)` — matching any number of
`A`s, not exactly one — and `_matchArgument` is not anchored: with `nargs = 2`
the compiled `(A*A-*)` matches two tokens starting at position 1 of `-AA`, and
absorbs the trailing `-` (a `--` token) of `AA-`. -/
theorem c2_arity_regexp_misstripped :
    getRegexpNargsSource storeXUnset = some "(A*)" ∧
    matchArgument storeXUnset "AA" = .ok 2 ∧
    matchArgument storeXUnset "" = .ok 0 ∧
    getRegexpNargsSource storeXTwo = some "(A*A-*)" ∧
    matchArgument storeXTwo "-AA" = .ok 2 ∧
    matchArgument storeXTwo "AA-" = .ok 3 :=
  ⟨by rfl, by rfl, by rfl, by rfl, by rfl, by rfl⟩

set_option maxHeartbeats 4000000 in
/-- C3 counterexample: the declared action `-r` / `--required` has destination
`required` (not SUPPRESS) and default `"bar"` (not SUPPRESS), yet
`parseArgsKnown` on the empty token list exits with status 2 (missing required
argument) instead of returning any namespace. -/
theorem c3_required_action_exits :
    parserRequiredE = .ok (parserRequired, 0) ∧
    parserRequired.actions.map Action.defaultValue = [.str "bar"] ∧
    parseArgsKnown parserRequired [] = .error (.exit 2) :=
  ⟨by rfl, by rfl, by rfl⟩

/-- On the empty token list, a parser with no positional actions, no mutually
exclusive groups and no required action returns its namespace untouched with
no extras (helper for the amended claim C3). -/
theorem parseArgsKnownInner_empty_optional (p : ParserState) (a : Action) (ns : Namespace)
    (hpf : p.prefixCharsFile = .undefined)
    (hmutex : p.actionGroupsMutex = [])
    (hacts : p.actions = [a])
    (hopt : a.isPositional = false)
    (hreq : jsTruthy a.required = false) :
    parseArgsKnownInner p [] ns = .ok (ns, []) := by
  simp [parseArgsKnownInner, readArgs, hpf, hmutex, hacts, classify, buildConflicts,
        lastOptIndex, mainLoop, consumePositionals, matchArgumentsPartial,
        matchArgumentsPartial.go, consumePositionals.go, hopt, hreq, jsDefined,
        bind, Except.bind, pure, Except.pure, findNextOpt]

/-- C3 amended: for a non-required OPTIONAL action `A` whose destination is
not SUPPRESS and whose default is not SUPPRESS, `parseArgsKnown` on the empty
token list against the parser declaring only `A` returns the namespace holding
the seeded default at the destination — the raw default, coerced through the
type function when it is a string (`seededDefault`).  The restriction to
non-required actions is forced by `c3_required_action_exits`: a required
action (and every constructible positional is required) makes the parse exit
instead of returning. -/
theorem c3_default_seeded_for_nonrequired (A : Action) (dest : String) (seeded : Value)
    (hOS : A.optionStrings ≠ [])
    (hreq : jsTruthy A.required = false)
    (hdest : A.destination = .str dest)
    (hdS : dest ≠ SUPPRESS)
    (hd : jsLooseEq A.defaultValue (.str SUPPRESS) = false)
    (hseed : seededDefault A = .ok seeded) :
    parseArgsKnown (soleParser A) [] = .ok (⟨[(dest, seeded)]⟩, []) := by
  have hpos : A.isPositional = false := by
    simp [Action.isPositional, List.length_eq_zero, hOS]
  have hsole : soleParser A =
      { actions := [A],
        optionStringActions := A.optionStrings.foldl (fun ix s => ixSet ix s 0) [] } := by
    simp [soleParser, addActionState_empty A]
  have hinner := parseArgsKnownInner_empty_optional (soleParser A) A
    (Namespace.set ⟨[]⟩ dest seeded)
    (by simp [hsole]) (by simp [hsole]) (by simp [hsole]) hpos hreq
  have hls : jsLooseEq (.str dest) (.str SUPPRESS) = false := by
    simp [jsLooseEq, hdS]
  have hns : (Namespace.set ⟨[]⟩ dest seeded) = (⟨[(dest, seeded)]⟩ : Namespace) := by
    simp [Namespace.set, Namespace.set.go]
  have hacts2 : (soleParser A).actions = [A] := by rw [hsole]
  have hdefs2 : (soleParser A).defaults = [] := by rw [hsole]
  have hget2 : (⟨[]⟩ : Namespace).get dest = .undefined := rfl
  rw [hns] at hinner
  simp only [parseArgsKnown, hacts2, hdefs2, List.foldlM, List.foldl, bind, Except.bind,
    pure, Except.pure, hdest, hls, hget2, hd, jsDefined, hseed, valueToString, hns]
  simp [hinner, Namespace.get, List.lookup]

set_option maxHeartbeats 4000000 in
/-- Witness: the `-f` / `--foo` store action with default `defaultVal` and
identity type satisfies every hypothesis of
`c3_default_seeded_for_nonrequired`, and the empty parse seeds the default. -/
theorem c3_default_seeded_for_nonrequired_witness :
    (⟨.store, ["-f", "--foo"], .str "foo", .undefined, .undefined, .str "defaultVal", .null,
       .undefined, .bool false, .undefined, .undefined, .undefined⟩ : Action).optionStrings ≠ [] ∧
    jsTruthy (Value.bool false) = false ∧
    ("foo" : String) ≠ SUPPRESS ∧
    jsLooseEq (.str "defaultVal") (.str SUPPRESS) = false ∧
    seededDefault ⟨.store, ["-f", "--foo"], .str "foo", .undefined, .undefined, .str "defaultVal",
      .null, .undefined, .bool false, .undefined, .undefined, .undefined⟩ = .ok (.str "defaultVal") ∧
    parseArgsKnown (soleParser ⟨.store, ["-f", "--foo"], .str "foo", .undefined, .undefined,
      .str "defaultVal", .null, .undefined, .bool false, .undefined, .undefined, .undefined⟩) [] =
      .ok (⟨[("foo", .str "defaultVal")]⟩, []) :=
  ⟨by decide, rfl, by decide, by decide, by rfl,
   c3_default_seeded_for_nonrequired
     ⟨.store, ["-f", "--foo"], .str "foo", .undefined, .undefined, .str "defaultVal", .null,
       .undefined, .bool false, .undefined, .undefined, .undefined⟩
     "foo" (.str "defaultVal") (by decide) rfl rfl (by decide) (by decide) (by rfl)⟩

set_option maxHeartbeats 4000000 in
/-- C4: the required-mutex-group check of lines 1966-1987 raises its error
exactly when a member WAS seen with a non-default value (`if(found)`, line
1977, contradicting the comment above it): `["-x", "1"]` exits with status 2
although `-x` was given (the same input parses fine without the group), while
the empty token list passes although no member was seen. -/
theorem c4_mutex_required_inverted :
    parseArgsKnown parserMutex ["-x", "1"] = .error (.exit 2) ∧
    parseArgsKnown parserXY ["-x", "1"] = .ok (⟨[("x", .str "1"), ("y", .undefined)]⟩, []) ∧
    parseArgsKnown parserMutex [] = .ok (⟨[("x", .undefined), ("y", .undefined)]⟩, []) :=
  ⟨by rfl, by rfl, by rfl⟩

set_option maxHeartbeats 4000000 in
/-- C5: under the `resolve` conflict handler a colliding declaration does not
silently remove just the colliding option strings: the handler throws a
`TypeError` out of `addArgument` (its `this` is unbound), and the splice it
ran first truncates the prior action AT the colliding string, removing
`--foo` along with `-f`. -/
theorem c5_resolve_throws :
    parserResolveE = .ok (parserResolve, 0) ∧
    priorFooAction.optionStrings = ["-f", "--foo"] ∧
    addArgument parserResolve ["-f"] { action := .str "store" } =
      .error (.thrown (.typeError "Cannot convert undefined or null to object")) ∧
    (handleConflictResolve priorFooAction "-f").1.optionStrings = [] :=
  ⟨by rfl, by rfl, by rfl, by rfl⟩

set_option maxHeartbeats 4000000 in
/-- C6: the token `-1` is not a declared option string of `parserFoo` and no
declared option string matches the negative-number pattern, yet
`_parseOptional` does not classify it as positional: it crashes in
`_getOptionTuples` (a plain object has no `forEach`) before the
negative-number branch; that branch could never fire anyway, since the
run-time pattern (its backslashes eaten by the string literal) does not match
`-1` and its other conjunct negates an always-truthy array. -/
theorem c6_negative_number_not_positional :
    jsStringMatch "-1" regexpNegativeNumber = .ok none ∧
    parserFoo.optionStringActions.lookup "-1" = none ∧
    (parserFoo.optionStringActions.map fun q => jsStringMatch q.1 regexpNegativeNumber) =
      [.ok none, .ok none] ∧
    parseOptional parserFoo "-1" =
      .error (.thrown (.typeError "this._optionStringActions.forEach is not a function")) :=
  ⟨by rfl, by rfl, by rfl, by rfl⟩

/-- C7: `_getValues` for a `*`-arity positional with a defined default and
zero matched value tokens returns the empty list, not the default: the
`!argStrings` guard of the default branch (line 2265) negates an array and
never fires. -/
theorem c7_star_positional_empty_list :
    getValues starPositional [] = .ok (.list []) ∧
    starPositional.defaultValue = .list [.str "d"] ∧
    (Value.list [] : Value) ≠ .list [.str "d"] :=
  ⟨by rfl, by rfl, by decide⟩

set_option maxHeartbeats 4000000 in
/-- C8: declaring `--integer` with type `int` fails at construction — the type
registry holds only the identity entries `auto` and `null`, the raw string
`int` is not callable and `addArgument` throws; without an explicit `action`
entry it throws even earlier, since the action-registry lookup under the key
`undefined` misses. -/
theorem c8_int_type_throws :
    addArgument baseParser ["--integer"] { action := .str "store", type := .str "int" } =
      .error (.thrown (.error "\"int\" is not callable")) ∧
    addArgument baseParser ["--integer"] { type := .str "int" } =
      .error (.thrown (.error "Unknown action \"undefined\".")) :=
  ⟨by rfl, by rfl⟩

set_option maxHeartbeats 4000000 in
/-- C9 counterexample: a parse error (here an unrecognized leftover argument)
exits with status 2, not 1. -/
theorem c9_parse_error_status_two :
    parseArgs parserFoo ["positional"] = .error (.exit 2) ∧
    Abort.exit 2 ≠ .exit 1 :=
  ⟨by rfl, by decide⟩

set_option maxHeartbeats 4000000 in
/-- C9 amended: the help and version actions exit with status 0 (via the full
pipeline and at the action call); a parse error exits with status 2; `error`
always reaches `process.exit` — the implementation has no debug mode that
would throw instead. -/
theorem c9_exit_statuses :
    parseArgs parserHelp ["-h"] = .error (.exit 0) ∧
    (∀ ns v, actionCall helpAction ns v = .error (.exit 0)) ∧
    (∀ ns v, actionCall versionAction ns v = .error (.exit 0)) ∧
    (∀ m, errorExit m = .exit 2) ∧
    parseArgsKnown parserRequired ["--nope"] = .error (.exit 2) :=
  ⟨by rfl, fun _ _ => rfl, fun _ _ => rfl, fun _ => rfl, by rfl⟩

/-- Any options object whose (after-defaulting) `optionStrings` and `required`
pass their assertions but whose `nargs` is defined and not a number makes the
`Action` constructor throw the `nargs` assertion (helper for C10). -/
theorem actionInit_nonNumeric_nargs (kind : ActionKind) (opts : ActionOptions)
    (h1 : isArrayOrUnset opts.optionStrings = true)
    (h2 : isBoolOrUnset opts.required = true)
    (h3 : jsDefined opts.nargs = true)
    (h4 : Value.isNum opts.nargs = false) :
    actionInit kind opts = .error (.assertionError "nargs should be a number") := by
  obtain ⟨ac, os, dst, nargs, cst, dv, dk, ty, ch, rq, hp, mv, vr⟩ := opts
  cases os <;> simp [isArrayOrUnset] at h1 <;>
    cases rq <;> simp [isBoolOrUnset] at h2 <;>
      cases nargs <;> simp [jsDefined] at h3 <;>
        simp_all [actionInit, jsValue, jsDefined, Value.isNum,
          bind, Except.bind, pure, Except.pure, throw, throwThe, MonadExceptOf.throw]

/-- With well-formed `optionStrings` and `required`, construction succeeds for
an unset or numeric `nargs` (helper for C10). -/
theorem actionInit_ok_of_unset_or_num (kind : ActionKind) (opts : ActionOptions)
    (h1 : isArrayOrUnset opts.optionStrings = true)
    (h2 : isBoolOrUnset opts.required = true)
    (h3 : jsDefined opts.nargs = false ∨ Value.isNum opts.nargs = true) :
    ∃ a, actionInit kind opts = .ok a := by
  obtain ⟨ac, os, dst, nargs, cst, dv, dk, ty, ch, rq, hp, mv, vr⟩ := opts
  cases os <;> simp [isArrayOrUnset] at h1 <;>
    cases rq <;> simp [isBoolOrUnset] at h2 <;>
      cases nargs <;> simp_all [actionInit, jsValue, jsDefined, Value.isNum,
        bind, Except.bind, pure, Except.pure]

set_option maxHeartbeats 4000000 in
/-- C10: the `Action` constructor asserts `typeof nargs == "number"` for any
defined `nargs`, so (with the other asserted fields well formed) construction
succeeds exactly for an unset or numeric arity; each of the string arities
`?`, `*`, `+`, `...`, `A...` trips the assertion, and so does `addArgument`
with such an `nargs`. -/
theorem c10_nargs_number_assert :
    (∀ (kind : ActionKind) (opts : ActionOptions),
      isArrayOrUnset opts.optionStrings = true →
      isBoolOrUnset opts.required = true →
      jsDefined opts.nargs = true →
      Value.isNum opts.nargs = false →
      actionInit kind opts = .error (.assertionError "nargs should be a number")) ∧
    ((["?", "*", "+", "...", "A..."].map fun s =>
        actionInit .store { nargs := .str s }) =
      List.replicate 5 (.error (.assertionError "nargs should be a number"))) ∧
    addArgument baseParser ["-z"] { action := .str "store", nargs := .str "?" } =
      .error (.thrown (.assertionError "nargs should be a number")) ∧
    (∀ (kind : ActionKind) (opts : ActionOptions),
      isArrayOrUnset opts.optionStrings = true →
      isBoolOrUnset opts.required = true →
      jsDefined opts.nargs = false ∨ Value.isNum opts.nargs = true →
      ∃ a, actionInit kind opts = .ok a) :=
  ⟨actionInit_nonNumeric_nargs, by rfl, by rfl, actionInit_ok_of_unset_or_num⟩

set_option maxHeartbeats 400000 in
/-- Witness: the assertion-failure direction of `c10_nargs_number_assert` at
the concrete arity `?`, and the success direction at `nargs = 5`. -/
theorem c10_nargs_number_assert_witness :
    (isArrayOrUnset (ActionOptions.optionStrings { nargs := .str "?" }) = true ∧
     isBoolOrUnset (ActionOptions.required { nargs := .str "?" }) = true ∧
     jsDefined (ActionOptions.nargs { nargs := .str "?" }) = true ∧
     Value.isNum (ActionOptions.nargs { nargs := .str "?" }) = false ∧
     actionInit .store { nargs := .str "?" } =
       .error (.assertionError "nargs should be a number")) ∧
    (∃ a, actionInit .store { nargs := .num 5 } = .ok a) :=
  ⟨⟨by decide, by decide, by decide, by decide,
    c10_nargs_number_assert.1 .store { nargs := .str "?" }
      (by decide) (by decide) (by decide) (by decide)⟩,
   c10_nargs_number_assert.2.2.2 .store { nargs := .num 5 } (by decide) (by decide)
     (Or.inr (by decide))⟩

end Argparse
